import Mathlib

/-!
Shallow embedding of `src/app.py` (a lookup-and-calculate chemistry tool):
the PubChem lookup client, the SQLite-backed cache, the translator guard,
the schema self-repair at startup, and the mass-from-moles calculator.
Python floats are modelled by exact rationals; Python exceptions are made
explicit as outcome constructors; the SQLite table is a list of rows in
rowid order.
-/

namespace ChemApp

/-- A JSON value, as produced by `r.json()` in `fetch_from_pubchem`. -/
inductive Json where
  | null : Json
  | str (s : String) : Json
  | num (q : ℚ) : Json
  | arr (xs : List Json) : Json
  | obj (kvs : List (String × Json)) : Json
deriving Repr

/-- Python truthiness of a JSON value (`if res:` in the search handler):
`None`, empty string, zero, empty list and empty dict are falsy. -/
def Json.truthy : Json → Bool
  | .null => false
  | .str s => !(s = "")
  | .num q => !(q = 0)
  | .arr xs => !xs.isEmpty
  | .obj kvs => !kvs.isEmpty

/-- Python `d[k]` / `d.get(k)` for string keys: a value on dicts holding
the key, otherwise nothing (KeyError / TypeError, made explicit). -/
def Json.get? : Json → String → Option Json
  | .obj kvs, k => kvs.lookup k
  | _, _ => none

/-- Python `x[0]`: first element of a list, first character of a string
(both as in `...['Properties'][0]`); anything else raises (IndexError,
KeyError or TypeError), modelled as `none`. -/
def Json.idx0 : Json → Option Json
  | .arr xs => xs.head?
  | .str s => (s.data.head?).map (fun c => Json.str (String.mk [c]))
  | _ => none

/-- The observable outcome of `requests.get(url, timeout=10)`:
either the request raised (timeout, connection error, ...), or a response
with a status code and a body; `body = none` models a body on which
`r.json()` raises. -/
inductive HttpResult where
  | transportError : HttpResult
  | response (status : Nat) (body : Option Json) : HttpResult

/-- `fetch_from_pubchem`: inside a bare `try`, issue the request; on a 200
status return `r.json()['PropertyTable']['Properties'][0]`; any exception
on this path is caught and yields `None`; a non-200 status falls off the
end of the function, also yielding `None`. -/
def fetch_from_pubchem : HttpResult → Option Json
  | .transportError => none
  | .response status body =>
    if status = 200 then
      match body with
      | none => none
      | some j =>
        ((j.get? "PropertyTable").bind (fun pt => pt.get? "Properties")).bind Json.idx0
    else none

/-- One row of the `chemicals` table, schema
`(query_name TEXT PRIMARY KEY, en_name TEXT, mw REAL, formula TEXT,
iupac_name TEXT, cas TEXT)`; `none` is SQL NULL. SQLite is dynamically
typed, so the populated cells keep the JSON values that were bound. -/
structure Row where
  query_name : String
  en_name : Option String
  mw : Option Json
  formula : Option Json
  iupac_name : Option Json
  cas : Option String
deriving Repr

/-- The `chemicals` table as a list of rows in ascending rowid order. -/
abbrev Cache := List Row

/-- `INSERT OR REPLACE INTO chemicals (query_name, mw, formula, iupac_name)
VALUES (?, ?, ?, ?)`: the row conflicting on the primary key is deleted,
and the new row is inserted with a fresh (largest) rowid; columns not named
in the column list become NULL. -/
def upsert (db : Cache) (q : String) (mw formula iupac : Json) : Cache :=
  db.filter (fun r => !(r.query_name = q)) ++
    [{ query_name := q, en_name := none, mw := some mw,
       formula := some formula, iupac_name := some iupac, cas := none }]

/-- `get_history`: `SELECT query_name, formula FROM chemicals ORDER BY
rowid DESC LIMIT 3`. -/
def get_history (db : Cache) : List (String × Option Json) :=
  (db.reverse.take 3).map (fun r => (r.query_name, r.formula))

/-- What the search handler does after `fetch_from_pubchem` returns:
show the not-matched error, set the session item (after writing the cache),
or raise an uncaught exception out of the handler. -/
inductive SearchOutcome where
  | noResult : SearchOutcome
  | success (name : String) (mw formula iupac : Json) : SearchOutcome
  | raised : SearchOutcome

/-- The search-trigger handler: `res = fetch_from_pubchem(en_query)`; if
`res` is truthy, read `res['MolecularWeight']` and
`res['MolecularFormula']` with no surrounding `try` (a record without
them raises out of the handler), default `res.get('IUPACName', 'N/A')`,
then upsert under the ORIGINAL query string; otherwise show the error.
The returned cache is the table after the handler runs. -/
def searchHandler (query : String) (r : HttpResult) (db : Cache) :
    Cache × SearchOutcome :=
  match fetch_from_pubchem r with
  | none => (db, .noResult)
  | some res =>
    if res.truthy then
      match res.get? "MolecularWeight" with
      | none => (db, .raised)
      | some mw =>
        match res.get? "MolecularFormula" with
        | none => (db, .raised)
        | some formula =>
          let iupac := (res.get? "IUPACName").getD (Json.str "N/A")
          (upsert db query mw formula iupac, .success query mw formula iupac)
    else (db, .noResult)

/-- Cache states reachable by the program: the empty table (a fresh
database) followed by any sequence of successful-lookup upserts. -/
inductive Reachable : Cache → Prop where
  | nil : Reachable []
  | step (db : Cache) (q : String) (mw formula iupac : Json) :
      Reachable db → Reachable (upsert db q mw formula iupac)

/-- The column set created by `init_db`. -/
def expectedCols : List String :=
  ["query_name", "en_name", "mw", "formula", "iupac_name", "cas"]

/-- A database file: either no `chemicals` table, or a table with its
column list and its rows. -/
abbrev DbFile := Option (List String × Cache)

/-- `init_db`: probe with `SELECT cas FROM chemicals LIMIT 1`; if that
raises OperationalError (no such table, or no such column `cas`), run
`DROP TABLE IF EXISTS chemicals`; then `CREATE TABLE IF NOT EXISTS` with
the full expected column set. -/
def init_db : DbFile → DbFile
  | none => some (expectedCols, [])
  | some (cols, rows) =>
    if "cas" ∈ cols then some (cols, rows)
    else some (expectedCols, [])

/-- The character test in `free_translate`:
`'一' <= char <= '鿿'` (CJK Unified Ideographs, inclusive). -/
def isCJK (c : Char) : Bool := 0x4e00 ≤ c.toNat && c.toNat ≤ 0x9fff

/-- `free_translate`: if any character of the text is CJK, call the
external translator (modelled as `svc`; `none` is a raised exception,
caught and mapped back to the input); otherwise return the input without
calling out. The boolean records whether the external service was
called. -/
def free_translate (svc : String → Option String) (text : String) :
    String × Bool :=
  if text.any isCJK then
    match svc text with
    | some t => (t, true)
    | none => (text, true)
  else (text, false)

/-- The output-unit radio selector: g, mg or kg. -/
inductive MassUnit where
  | g : MassUnit
  | mg : MassUnit
  | kg : MassUnit
deriving Repr, DecidableEq

/-- Outcome of pressing the compute button: the warning for a
non-positive mole count, the ZeroDivisionError Python raises when the
divisor `p_val/100` is zero, or the displayed mass in the chosen unit. -/
inductive CalcOutcome where
  | warning : CalcOutcome
  | divByZero : CalcOutcome
  | result (grams : ℚ) (unit : MassUnit) : CalcOutcome
deriving Repr, DecidableEq

/-- The unit-conversion branch: `mg` multiplies by 1000, `kg` divides by
1000, `g` leaves the value unchanged. -/
def unitConvert (res_g : ℚ) : MassUnit → ℚ
  | .g => res_g
  | .mg => res_g * 1000
  | .kg => res_g / 1000

/-- The compute-button handler: if `m_val > 0`, compute
`res_g = (m_val * mw) / (p_val/100)` (raising ZeroDivisionError when the
divisor is zero, made explicit here because rational division by zero
does not raise) and convert to the selected unit; otherwise show the
warning and skip the computation. -/
def calc_trigger (m_val mw p_val : ℚ) (u : MassUnit) : CalcOutcome :=
  if m_val > 0 then
    if p_val / 100 = 0 then .divByZero
    else .result (unitConvert ((m_val * mw) / (p_val / 100)) u) u
  else .warning

/-- The digits shown by the Python format `f"{x:.4f}"`, as the integer
number of ten-thousandths (rounded to the nearest). -/
def fmt4 (q : ℚ) : ℤ := round (q * 10000)

end ChemApp

namespace ChemApp

/-- C2: for every positive mole count and molecular weight and nonzero
purity, the computed mass is `(moles * molecular_weight) / (purity / 100)`
grams converted by the chosen unit; in particular moles = 0.01,
molecular_weight = 58.44, purity = 50, unit = gram gives 1.1688 g. -/
theorem mass_formula_correct (m mw p : ℚ) (u : MassUnit)
    (hm : 0 < m) (_hmw : 0 < mw) (hp : p ≠ 0) :
    calc_trigger m mw p u
      = CalcOutcome.result (unitConvert ((m * mw) / (p / 100)) u) u ∧
    calc_trigger (1/100) (5844/100) 50 MassUnit.g
      = CalcOutcome.result (11688/10000) MassUnit.g := by
  constructor
  · have hp100 : ¬ (p / 100 = 0) := by
      simp [div_eq_zero_iff, hp]
    simp [calc_trigger, hm, hp100]
  · norm_num [calc_trigger, unitConvert]

/-- Witness for `mass_formula_correct` at moles = 2, mw = 3, purity = 100,
unit = gram. -/
theorem mass_formula_correct_witness :
    calc_trigger 2 3 100 MassUnit.g
      = CalcOutcome.result (unitConvert ((2 * 3) / (100 / 100)) MassUnit.g)
          MassUnit.g ∧
    calc_trigger (1/100) (5844/100) 50 MassUnit.g
      = CalcOutcome.result (11688/10000) MassUnit.g :=
  mass_formula_correct 2 3 100 MassUnit.g (by norm_num) (by norm_num)
    (by norm_num)

/-- C3 counterexample: with moles = 1, molecular_weight = 180.16,
purity = 100 and unit = kilogram, the computed value is 0.18016 kg;
rendered to 4 decimals that is 0.1802, not the claimed 0.1816. -/
theorem kilogram_render_cex :
    calc_trigger 1 (18016/100) 100 MassUnit.kg
      = CalcOutcome.result (18016/100000) MassUnit.kg ∧
    fmt4 (18016/100000) = 1802 ∧ fmt4 (18016/100000) ≠ 1816 := by
  refine ⟨by norm_num [calc_trigger, unitConvert], ?_, ?_⟩ <;>
    · rw [fmt4, round_eq]; norm_num

/-- C3 amended: moles = 1, molecular_weight = 180.16, purity = 100 renders
(at 4 decimals) 180.1600 for gram, 180160.0000 for milligram, and 0.1802
for kilogram (exact value 0.18016 = 180.16 / 1000). -/
theorem render_values_amended :
    (calc_trigger 1 (18016/100) 100 MassUnit.g
        = CalcOutcome.result (18016/100) MassUnit.g ∧
      fmt4 (18016/100) = 1801600) ∧
    (calc_trigger 1 (18016/100) 100 MassUnit.mg
        = CalcOutcome.result 180160 MassUnit.mg ∧
      fmt4 180160 = 1801600000) ∧
    (calc_trigger 1 (18016/100) 100 MassUnit.kg
        = CalcOutcome.result (18016/100000) MassUnit.kg ∧
      fmt4 (18016/100000) = 1802) := by
  refine ⟨⟨?_, ?_⟩, ⟨?_, ?_⟩, ⟨?_, ?_⟩⟩ <;>
    first
      | (rw [fmt4, round_eq]; norm_num)
      | norm_num [calc_trigger, unitConvert]

/-- C4: for every mole count at most zero the compute handler produces the
warning state and skips the computation. -/
theorem moles_nonpositive_warning (m mw p : ℚ) (u : MassUnit)
    (h : m ≤ 0) : calc_trigger m mw p u = CalcOutcome.warning := by
  simp [calc_trigger, not_lt.mpr h]

/-- Witness for `moles_nonpositive_warning` at moles = 0. -/
theorem moles_nonpositive_warning_witness :
    calc_trigger 0 (18016/100) 100 MassUnit.g = CalcOutcome.warning :=
  moles_nonpositive_warning 0 (18016/100) 100 MassUnit.g le_rfl

/-- C9: purity 0 is unguarded: for every positive mole count the compute
handler reaches the division by zero (Python ZeroDivisionError). -/
theorem purity_zero_divides (m mw : ℚ) (u : MassUnit) (hm : 0 < m) :
    calc_trigger m mw 0 u = CalcOutcome.divByZero := by
  simp [calc_trigger, hm]

/-- Witness for `purity_zero_divides` at moles = 1, mw = 58.44. -/
theorem purity_zero_divides_witness :
    calc_trigger 1 (5844/100) 0 MassUnit.g = CalcOutcome.divByZero :=
  purity_zero_divides 1 (5844/100) MassUnit.g one_pos

end ChemApp

namespace ChemApp

/-- Helper: every reachable cache state has pairwise-distinct keys. -/
theorem reachable_keys_nodup (db : Cache) (h : Reachable db) :
    (db.map Row.query_name).Nodup := by
  induction h with
  | nil => simp
  | step db q mw formula iupac _ ih =>
    rw [upsert, List.map_append]
    refine List.Nodup.append ?_ (by simp) ?_
    · exact List.Nodup.sublist
        (List.Sublist.map Row.query_name (List.filter_sublist db)) ih
    · intro a ha hb
      simp only [List.map_cons, List.map_nil, List.mem_singleton] at hb
      subst hb
      rcases List.mem_map.1 ha with ⟨r, hr, hqa⟩
      have hp := List.of_mem_filter hr
      simp [hqa] at hp

/-- C5: in every reachable cache state `query_name` is unique (at most one
row per exact query string, no normalization), and repeating the same
successful upsert leaves the table unchanged, with exactly one row for
that key (overwrite, not duplicate). -/
theorem cache_unique_and_idempotent (db : Cache) (h : Reachable db)
    (q : String) (mw formula iupac : Json) :
    (db.map Row.query_name).Nodup ∧
    upsert (upsert db q mw formula iupac) q mw formula iupac
      = upsert db q mw formula iupac ∧
    ((upsert db q mw formula iupac).filter
        (fun r => r.query_name = q)).length = 1 := by
  refine ⟨reachable_keys_nodup db h, ?_, ?_⟩
  · simp [upsert, List.filter_append, List.filter_filter]
  · rw [upsert, List.filter_append]
    have h1 : (db.filter (fun r => !(r.query_name = q))).filter
        (fun r => decide (r.query_name = q)) = [] := by
      simp [List.filter_filter]
    simp [h1]

/-- Witness for `cache_unique_and_idempotent` on the empty cache with the
query string NaCl. -/
theorem cache_unique_and_idempotent_witness :
    (([] : Cache).map Row.query_name).Nodup ∧
    upsert (upsert [] "NaCl" (Json.str "58.44") (Json.str "NaCl")
        (Json.str "sodium chloride")) "NaCl" (Json.str "58.44")
      (Json.str "NaCl") (Json.str "sodium chloride")
      = upsert [] "NaCl" (Json.str "58.44") (Json.str "NaCl")
          (Json.str "sodium chloride") ∧
    ((upsert [] "NaCl" (Json.str "58.44") (Json.str "NaCl")
        (Json.str "sodium chloride")).filter
      (fun r => r.query_name = "NaCl")).length = 1 :=
  cache_unique_and_idempotent [] Reachable.nil "NaCl" (Json.str "58.44")
    (Json.str "NaCl") (Json.str "sodium chloride")

/-- C6: an upsert followed immediately by reading the most recent
history entry returns exactly the upserted (query_name, formula) pair. -/
theorem upsert_then_recent_head (db : Cache) (q : String)
    (mw formula iupac : Json) :
    (get_history (upsert db q mw formula iupac)).head?
      = some (q, some formula) := by
  simp [get_history, upsert]

/-- C10: after an upsert, every row stored under that query_name has
en_name = NULL and cas = NULL, because the INSERT OR REPLACE names only
(query_name, mw, formula, iupac_name) and replaces the whole row. -/
theorem upsert_clears_en_name_cas (db : Cache) (q : String)
    (mw formula iupac : Json) (r : Row)
    (hr : r ∈ upsert db q mw formula iupac) (hq : r.query_name = q) :
    r.en_name = none ∧ r.cas = none := by
  simp only [upsert] at hr
  rcases List.mem_append.1 hr with hmem | hmem
  · have hp := List.of_mem_filter hmem
    simp [hq] at hp
  · rw [List.mem_singleton] at hmem
    subst hmem
    exact ⟨rfl, rfl⟩

/-- A previously cached row for the key "w" whose en_name and cas cells
are populated, used to exercise the overwrite. -/
def staleRow : Row :=
  { query_name := "w", en_name := some "water", mw := none,
    formula := none, iupac_name := none, cas := some "7732-18-5" }

/-- The row the upsert of key "w" writes over `staleRow`. -/
def freshRow : Row :=
  { query_name := "w", en_name := none, mw := some (Json.str "18.015"),
    formula := some (Json.str "H2O"),
    iupac_name := some (Json.str "oxidane"), cas := none }

/-- Witness for `upsert_clears_en_name_cas`: overwriting `staleRow`
(whose en_name and cas were populated) leaves NULLs in those columns. -/
theorem upsert_clears_en_name_cas_witness :
    freshRow.en_name = none ∧ freshRow.cas = none :=
  upsert_clears_en_name_cas [staleRow] "w" (Json.str "18.015")
    (Json.str "H2O") (Json.str "oxidane") freshRow
    (by simp [upsert, staleRow, freshRow]) rfl

/-- C7: for every input with no character in the CJK Unified Ideographs
range U+4E00 to U+9FFF, the translator returns the input unchanged and
does not call the external translation service. -/
theorem non_cjk_unchanged (svc : String → Option String) (text : String)
    (h : ∀ c ∈ text.data, ¬(0x4e00 ≤ c.toNat ∧ c.toNat ≤ 0x9fff)) :
    free_translate svc text = (text, false) := by
  have hany : text.any isCJK = false := by
    rw [String.any_eq]
    simp only [List.any_eq_false]
    intro c hc
    simpa [isCJK] using h c hc
  simp [free_translate, hany]

/-- Witness for `non_cjk_unchanged` on the input NaCl, with a service
that would return a different string if called. -/
theorem non_cjk_unchanged_witness :
    free_translate (fun _ => some "sodium chloride") "NaCl"
      = ("NaCl", false) :=
  non_cjk_unchanged (fun _ => some "sodium chloride") "NaCl" (by decide)

/-- C8: if the chemicals table lacks the probed column cas, startup drops
it and recreates it empty with the full expected schema (all cached rows
lost); if the probe succeeds, the table and its rows are preserved. -/
theorem init_db_schema_repair (cols : List String) (rows : Cache) :
    ("cas" ∉ cols → init_db (some (cols, rows)) = some (expectedCols, [])) ∧
    ("cas" ∈ cols → init_db (some (cols, rows)) = some (cols, rows)) := by
  constructor <;> intro h <;> simp [init_db, h]

/-- Witness for `init_db_schema_repair`: a drifted five-column table is
rebuilt empty, and a table with the expected schema is kept. -/
theorem init_db_schema_repair_witness :
    init_db (some (["query_name", "en_name", "mw", "formula",
        "iupac_name"], [staleRow]))
      = some (expectedCols, []) ∧
    init_db (some (expectedCols, [staleRow]))
      = some (expectedCols, [staleRow]) :=
  ⟨(init_db_schema_repair _ _).1 (by decide),
    (init_db_schema_repair _ _).2 (by simp [expectedCols])⟩

end ChemApp

namespace ChemApp

/-- A 200 response whose property record is present but lacks the
MolecularWeight field. -/
def mwMissingResp : HttpResult :=
  .response 200 (some (.obj [("PropertyTable",
    .obj [("Properties", .arr [.obj [("MolecularFormula", .str "H2O")]])])]))

/-- C1 counterexample: on a 200 response whose property record lacks
MolecularWeight, the search handler raises an uncaught KeyError instead
of returning the no-result outcome. -/
theorem search_missing_mw_raises :
    (searchHandler "water" mwMissingResp []).2 = SearchOutcome.raised ∧
    SearchOutcome.raised ≠ SearchOutcome.noResult :=
  ⟨rfl, fun h => SearchOutcome.noConfusion h⟩

/-- C1 amended: a transport error, a non-2xx status, or a shape mismatch
inside the nested extraction path makes the fetch return nothing, and the
handler then reports no result and leaves the cache untouched; in every
run the handler either leaves the cache untouched or reports a success,
so even a raising run writes no record. A truthy 200 record lacking
MolecularWeight or MolecularFormula, however, raises rather than
reporting no result. -/
theorem lookup_failure_no_raise (q : String) (db : Cache)
    (r : HttpResult) :
    (fetch_from_pubchem r = none →
      searchHandler q r db = (db, SearchOutcome.noResult)) ∧
    (r = HttpResult.transportError → fetch_from_pubchem r = none) ∧
    (∀ s b, s ≠ 200 → fetch_from_pubchem (HttpResult.response s b) = none) ∧
    ((searchHandler q r db).1 = db ∨
      ∃ mw formula iupac,
        (searchHandler q r db).2
          = SearchOutcome.success q mw formula iupac) := by
  refine ⟨?_, ?_, ?_, ?_⟩
  · intro h
    simp [searchHandler, h]
  · intro h
    subst h
    rfl
  · intro s b hs
    simp [fetch_from_pubchem, hs]
  · cases hf : fetch_from_pubchem r with
    | none => exact Or.inl (by simp [searchHandler, hf])
    | some res =>
      by_cases ht : res.truthy
      · cases hmw : res.get? "MolecularWeight" with
        | none => exact Or.inl (by simp [searchHandler, hf, ht, hmw])
        | some mw =>
          cases hform : res.get? "MolecularFormula" with
          | none =>
            exact Or.inl (by simp [searchHandler, hf, ht, hmw, hform])
          | some formula =>
            exact Or.inr ⟨mw, formula,
              (res.get? "IUPACName").getD (Json.str "N/A"),
              by simp [searchHandler, hf, ht, hmw, hform]⟩
      · exact Or.inl (by simp [searchHandler, hf, ht])

/-- Witness for `lookup_failure_no_raise`: a transport error yields the
no-result outcome with the cache untouched, and a 404 status makes the
fetch return nothing. -/
theorem lookup_failure_no_raise_witness :
    searchHandler "x" HttpResult.transportError []
      = ([], SearchOutcome.noResult) ∧
    fetch_from_pubchem (HttpResult.response 404 none) = none :=
  ⟨(lookup_failure_no_raise "x" [] HttpResult.transportError).1
      ((lookup_failure_no_raise "x" [] HttpResult.transportError).2.1 rfl),
    (lookup_failure_no_raise "x" [] (HttpResult.response 404 none)).2.2.1
      404 none (by decide)⟩

end ChemApp
